import Mathlib

/-
Verification of the Temperature value type (src/src/temperature.rs).

The source stores temperatures as a single IEEE-754 binary32 value (f32) in
Kelvin plus a scale tag. We model binary32 exactly. Every finite binary32
value is an integer multiple of 2 ^ -149, so a finite value is stored as that
integer (its value in units of 2 ^ -149); this makes equality of finite
values plain integer equality. Negative zero is conflated with zero, which no
operation modelled here distinguishes. Every arithmetic operation rounds the
exact rational result to the nearest binary32 value, ties to even, with
gradual underflow below 2 ^ -126 and overflow to infinity, as IEEE-754
prescribes for round-to-nearest-even, the rounding mode Rust uses.
-/

set_option maxRecDepth 100000

namespace SapphireStar

/-- IEEE-754 binary32 values. A finite value is `units * 2 ^ -149` where
`units` is an integer with absolute value at most (2^24 - 1) * 2^253. -/
inductive F32 where
  | finite (units : Int)
  | inf (neg : Bool)
  | nan
deriving DecidableEq, Repr

/-- Largest finite binary32 magnitude, (2^24 - 1) * 2^104 (std f32 MAX),
expressed in units of 2 ^ -149. -/
def maxFiniteUnits : Nat := (2 ^ 24 - 1) * 2 ^ 253

/-- Floor of the base-2 logarithm, by structural recursion on a fuel
argument so that it reduces inside the kernel. -/
def log2fuel : Nat → Nat → Nat
  | 0, _ => 0
  | fuel + 1, n => if n < 2 then 0 else log2fuel fuel (n / 2) + 1

def natLog2 (n : Nat) : Nat := log2fuel n n

/-- Floor of the base-2 logarithm of the positive rational p / q. -/
def ratLog2 (p q : Nat) : Int :=
  let g : Int := (natLog2 p : Int) - (natLog2 q : Int)
  if 0 ≤ g then (if q * 2 ^ g.toNat ≤ p then g else g - 1)
  else (if q ≤ p * 2 ^ (-g).toNat then g else g - 1)

/-- Round the positive rational p / q to the nearest binary32 value, ties to
even. Returns the scaled integer (units of 2 ^ -149), or none on overflow. -/
def roundPosUnits (p q : Nat) : Option Nat :=
  let e : Int := max (ratLog2 p q) (-126)
  let u : Int := e - 23
  let num : Nat := if 0 ≤ u then p else p * 2 ^ (-u).toNat
  let den : Nat := if 0 ≤ u then q * 2 ^ u.toNat else q
  let n : Nat := num / den
  let r : Nat := num % den
  let n2 : Nat :=
    if 2 * r < den then n
    else if den < 2 * r then n + 1
    else if n % 2 = 0 then n else n + 1
  let k : Nat := n2 * 2 ^ (u + 149).toNat
  if maxFiniteUnits < k then none else some k

/-- Round the exact rational num / den to the nearest binary32 value. -/
def roundQ (num den : Int) : F32 :=
  if den = 0 then F32.nan
  else if num = 0 then F32.finite 0
  else
    let neg : Bool := xor (decide (num < 0)) (decide (den < 0))
    match roundPosUnits num.natAbs den.natAbs with
    | none => F32.inf neg
    | some k => F32.finite (if neg then -(k : Int) else (k : Int))

/-- The binary32 value denoted by a source-code decimal literal, given as an
exact fraction num / den: the decimal rounded to the nearest binary32. -/
def f32lit (num den : Int) : F32 := roundQ num den

def F32.neg : F32 → F32
  | finite v => finite (-v)
  | inf b => inf (!b)
  | nan => nan

def F32.add : F32 → F32 → F32
  | nan, _ => nan
  | _, nan => nan
  | inf a, inf b => if a = b then inf a else nan
  | inf a, finite _ => inf a
  | finite _, inf b => inf b
  | finite a, finite b => roundQ (a + b) (2 ^ 149)

def F32.sub (x y : F32) : F32 := x.add y.neg

def F32.mul : F32 → F32 → F32
  | nan, _ => nan
  | _, nan => nan
  | inf a, inf b => inf (xor a b)
  | inf a, finite v => if v = 0 then nan else inf (xor a (decide (v < 0)))
  | finite v, inf b => if v = 0 then nan else inf (xor b (decide (v < 0)))
  | finite a, finite b => roundQ (a * b) (2 ^ 298)

def F32.div : F32 → F32 → F32
  | nan, _ => nan
  | _, nan => nan
  | inf _, inf _ => nan
  | inf a, finite v => inf (xor a (decide (v < 0)))
  | finite _, inf _ => finite 0
  | finite a, finite b =>
    if b = 0 then (if a = 0 then nan else inf (decide (a < 0)))
    else roundQ a b

/-- IEEE less-or-equal: false whenever either side is NaN. -/
def F32.fle : F32 → F32 → Bool
  | nan, _ => false
  | _, nan => false
  | inf a, inf b => a || !b
  | inf a, finite _ => a
  | finite _, inf b => !b
  | finite a, finite b => decide (a ≤ b)

/-- IEEE strict less-than: false whenever either side is NaN. -/
def F32.flt : F32 → F32 → Bool
  | nan, _ => false
  | _, nan => false
  | inf a, inf b => a && !b
  | inf a, finite _ => a
  | finite _, inf b => !b
  | finite a, finite b => decide (a < b)

/-- IEEE greater-or-equal, as used by the source comparison `value >= 0.0`. -/
def F32.fge (x y : F32) : Bool := F32.fle y x

/-- IEEE equality `==`: NaN compares unequal to everything, itself included. -/
def F32.beq : F32 → F32 → Bool
  | nan, _ => false
  | _, nan => false
  | inf a, inf b => a == b
  | inf _, finite _ => false
  | finite _, inf _ => false
  | finite a, finite b => decide (a = b)

def F32.isFinite : F32 → Bool
  | finite _ => true
  | _ => false

/-- Scale enum from the source, a pure display tag. -/
inductive Scale where
  | Celsius
  | Fahrenheit
  | Kelvin
  | Rankine
deriving DecidableEq, Repr

/-- Default scale is Kelvin (impl Default for Scale). -/
def Scale.default : Scale := Scale.Kelvin

/-- The Temperature struct: an f32 magnitude always stored in Kelvin, plus
the display scale tag. -/
structure Temperature where
  kelvin : F32
  scale : Scale
deriving DecidableEq, Repr

/-- Derived PartialEq on Temperature: fieldwise conjunction, comparing the
f32 field with IEEE equality and the scale field as a plain tag. -/
def tempEq (a b : Temperature) : Bool :=
  F32.beq a.kelvin b.kelvin && decide (a.scale = b.scale)

def ABSOLUTE_ZERO : Temperature := ⟨f32lit 0 1, Scale.Kelvin⟩
def FREEZING_POINT_OF_BRINE : Temperature := ⟨f32lit 25537 100, Scale.Kelvin⟩
def FREEZING_POINT_OF_WATER : Temperature := ⟨f32lit 27315 100, Scale.Kelvin⟩
def BOILING_POINT_OF_WATER : Temperature := ⟨f32lit 3731339 10000, Scale.Kelvin⟩

/-- Lowest representable temperature constant. -/
def MIN : Temperature := ABSOLUTE_ZERO

/-- Highest representable temperature constant, std f32 MAX tagged Kelvin. -/
def MAX : Temperature := ⟨F32.finite (maxFiniteUnits : Int), Scale.Kelvin⟩

/-- Constructor celsius: kelvin = c + 273.15, tagged Celsius. -/
def celsius (c : F32) : Temperature :=
  ⟨F32.add c (f32lit 27315 100), Scale.Celsius⟩

/-- Constructor fahrenheit: kelvin = (f + 459.67) * (5.0/9.0), tagged
Fahrenheit. -/
def fahrenheit (f : F32) : Temperature :=
  ⟨F32.mul (F32.add f (f32lit 45967 100)) (F32.div (f32lit 5 1) (f32lit 9 1)),
   Scale.Fahrenheit⟩

/-- Constructor kelvin: stores the input unchanged, tagged Kelvin. -/
def kelvin (k : F32) : Temperature := ⟨k, Scale.Kelvin⟩

/-- Constructor rankine, exactly as the source computes it:
kelvin = r + 459.67, tagged Rankine. -/
def rankine (r : F32) : Temperature :=
  ⟨F32.add r (f32lit 45967 100), Scale.Rankine⟩

/-- Temperature::new is an alias for the kelvin constructor. -/
def new (k : F32) : Temperature := kelvin k

def Temperature.to_celsius (t : Temperature) : Temperature :=
  ⟨t.kelvin, Scale.Celsius⟩

def Temperature.to_fahrenheit (t : Temperature) : Temperature :=
  ⟨t.kelvin, Scale.Fahrenheit⟩

def Temperature.to_kelvin (t : Temperature) : Temperature :=
  ⟨t.kelvin, Scale.Kelvin⟩

def Temperature.to_rankine (t : Temperature) : Temperature :=
  ⟨t.kelvin, Scale.Rankine⟩

/-- TryFrom f32: Ok (kelvin value) when value >= 0.0 under the IEEE
comparison, Err (the unit error) otherwise. -/
def try_from (value : F32) : Except Unit Temperature :=
  if F32.fge value (f32lit 0 1) then Except.ok (kelvin value) else Except.error ()

/-- Into f32: dispatch on the display scale and apply the inverse formula to
the stored magnitude, exactly as the source writes it. -/
def into_f32 (t : Temperature) : F32 :=
  match t.scale with
  | Scale.Celsius => F32.sub t.kelvin (f32lit 27315 100)
  | Scale.Fahrenheit =>
    F32.sub (F32.mul t.kelvin (F32.div (f32lit 9 1) (f32lit 5 1))) (f32lit 45967 100)
  | Scale.Kelvin => t.kelvin
  | Scale.Rankine => F32.mul t.kelvin (F32.div (f32lit 9 1) (f32lit 5 1))

/-- Numeric extraction as the specification words it: Celsius gives
m - 273.15, Fahrenheit gives m * 9/5 - 459.67, Kelvin gives m, Rankine gives
m * 9/5, where 9/5 is the binary32 value nearest to 9/5. -/
def extractionFormulaSpec (t : Temperature) : F32 :=
  match t.scale with
  | Scale.Celsius => F32.sub t.kelvin (f32lit 27315 100)
  | Scale.Fahrenheit => F32.sub (F32.mul t.kelvin (f32lit 9 5)) (f32lit 45967 100)
  | Scale.Kelvin => t.kelvin
  | Scale.Rankine => F32.mul t.kelvin (f32lit 9 5)

/-- Unit suffix each scale carries in the Display output. -/
def unit_suffix : Scale → String
  | Scale.Celsius => "°C"
  | Scale.Fahrenheit => "°F"
  | Scale.Kelvin => "K"
  | Scale.Rankine => "°R"

/-- Display: render the extracted numeric value, then the format suffix of
the scale, exactly following the four write! calls of the source. The
rendering of the f32 number itself (the Rust shortest-decimal Display of
f32, a std library routine outside this repository) is a parameter. -/
def display (render : F32 → String) (t : Temperature) : String :=
  match t.scale with
  | Scale.Celsius => render (into_f32 t) ++ " °C"
  | Scale.Fahrenheit => render (into_f32 t) ++ " °F"
  | Scale.Kelvin => render (into_f32 t) ++ " K"
  | Scale.Rankine => render (into_f32 t) ++ " °R"

/-- Helper: a strictly smaller value never compares greater-or-equal. -/
theorem flt_not_fle (x y : F32) (h : F32.flt x y = true) : F32.fle y x = false := by
  cases x <;> cases y <;> simp_all [F32.flt, F32.fle]

/-- C1: each re-tagging operation returns a Temperature with the same stored
kelvin magnitude, changing only the display scale field to the target
scale. -/
theorem retag_preserves_magnitude (t : Temperature) :
    t.to_celsius.kelvin = t.kelvin ∧ t.to_celsius.scale = Scale.Celsius ∧
    t.to_fahrenheit.kelvin = t.kelvin ∧ t.to_fahrenheit.scale = Scale.Fahrenheit ∧
    t.to_kelvin.kelvin = t.kelvin ∧ t.to_kelvin.scale = Scale.Kelvin ∧
    t.to_rankine.kelvin = t.kelvin ∧ t.to_rankine.scale = Scale.Rankine :=
  ⟨rfl, rfl, rfl, rfl, rfl, rfl, rfl, rfl⟩

/-- C2: the code violates the claim. rankine 491.67 stores the kelvin
magnitude 951.3399 (the binary32 sum 491.67 + 459.67), not 273.15, and
extracts back as Rankine to 1712.412, not 491.67: the rankine constructor
adds 459.67 without multiplying by 5/9, so it is not the inverse of the
Rankine extraction formula. -/
theorem rankine_491_67_code_bug :
    (rankine (f32lit 49167 100)).kelvin = F32.finite (15586755 * 2 ^ 135) ∧
    (rankine (f32lit 49167 100)).kelvin ≠ f32lit 27315 100 ∧
    into_f32 (rankine (f32lit 49167 100)) = F32.finite (14028079 * 2 ^ 136) ∧
    into_f32 (rankine (f32lit 49167 100)) ≠ f32lit 49167 100 := by
  refine ⟨by decide, by decide, by decide, by decide⟩

/-- C3: fallible construction succeeds exactly when the input compares
greater-or-equal to 0.0 under the IEEE comparison; on success the result is
Kelvin-tagged and stores the input unchanged; every input below 0.0 gives
the unit error, the condition the spec names InvalidMagnitude. -/
theorem try_from_spec (x : F32) :
    ((try_from x).isOk = F32.fge x (f32lit 0 1)) ∧
    (∀ t : Temperature, try_from x = Except.ok t →
      t.kelvin = x ∧ t.scale = Scale.Kelvin) ∧
    (F32.flt x (f32lit 0 1) = true → try_from x = Except.error ()) := by
  refine ⟨?_, ?_, ?_⟩
  · by_cases h : F32.fge x (f32lit 0 1) = true
    · simp [try_from, h, Except.isOk, Except.toBool]
    · rw [Bool.not_eq_true] at h
      simp [try_from, h, Except.isOk, Except.toBool]
  · intro t ht
    by_cases h : F32.fge x (f32lit 0 1) = true
    · simp [try_from, h] at ht
      rw [← ht]
      exact ⟨rfl, rfl⟩
    · rw [Bool.not_eq_true] at h
      simp [try_from, h] at ht
  · intro hlt
    have h := flt_not_fle x (f32lit 0 1) hlt
    have h2 : F32.fge x (f32lit 0 1) = false := h
    simp [try_from, h2]

/-- Witness for C3 at the concrete inputs 5.0 and -1.0. -/
theorem try_from_spec_witness :
    try_from (f32lit (-1) 1) = Except.error () ∧
    (f32lit 5 1).isFinite = true ∧
    (kelvin (f32lit 5 1)).kelvin = f32lit 5 1 := by
  refine ⟨(try_from_spec (f32lit (-1) 1)).2.2 (by decide), by decide, rfl⟩

/-- C4: numeric extraction reads the display scale and applies the inverse
formula to the stored magnitude, matching the formulas as the spec states
them (with 9/5 the binary32 quotient of 9.0 by 5.0, which equals the
binary32 value nearest to the exact rational 9/5). -/
theorem into_f32_refines_spec_formulas (t : Temperature) :
    into_f32 t = extractionFormulaSpec t := by
  have h : F32.div (f32lit 9 1) (f32lit 5 1) = f32lit 9 5 := by decide
  rcases t with ⟨k, s⟩
  cases s <;> simp [into_f32, extractionFormulaSpec, h]

/-- C5: constructing kelvin f and extracting it back with its Kelvin display
scale returns f exactly, for every finite f. -/
theorem kelvin_roundtrip (f : F32) (h : f.isFinite = true) :
    into_f32 (kelvin f) = f := rfl

/-- Witness for C5 at the concrete finite input 3.0. -/
theorem kelvin_roundtrip_witness :
    (f32lit 3 1).isFinite = true ∧ into_f32 (kelvin (f32lit 3 1)) = f32lit 3 1 :=
  ⟨by decide, kelvin_roundtrip (f32lit 3 1) (by decide)⟩

/-- C6: the derived equality holds iff both the stored magnitude (under IEEE
equality on f32) and the display scale match; celsius 100.0 and
fahrenheit 212.0 are not equal, their scale tags differing. -/
theorem temp_eq_iff_fields (a b : Temperature) :
    (tempEq a b = true ↔ (F32.beq a.kelvin b.kelvin = true ∧ a.scale = b.scale)) ∧
    tempEq (celsius (f32lit 100 1)) (fahrenheit (f32lit 212 1)) = false := by
  constructor
  · simp [tempEq, Bool.and_eq_true]
  · decide

/-- C7: text rendering is the rendered numeric extraction value, then a
single space, then the unit suffix of the display scale, the suffix being
°C, °F, K (no degree sign) or °R; this holds for any rendering of the
number itself. -/
theorem display_structure (render : F32 → String) (t : Temperature) :
    display render t = render (into_f32 t) ++ (" " ++ unit_suffix t.scale) ∧
    unit_suffix Scale.Celsius = "°C" ∧ unit_suffix Scale.Fahrenheit = "°F" ∧
    unit_suffix Scale.Kelvin = "K" ∧ unit_suffix Scale.Rankine = "°R" := by
  refine ⟨?_, rfl, rfl, rfl, rfl⟩
  rcases t with ⟨k, s⟩
  cases s <;> rfl

/-- C8: the named constants are all Kelvin-tagged, with magnitudes the
binary32 roundings of 0, 255.37, 273.15 and 373.1339 (given here also as
exact multiples of 2 ^ -149), MIN equal to ABSOLUTE_ZERO, and MAX
extracting as Kelvin to the largest finite binary32 value. -/
theorem constants_spec :
    ABSOLUTE_ZERO.kelvin = F32.finite 0 ∧ ABSOLUTE_ZERO.scale = Scale.Kelvin ∧
    FREEZING_POINT_OF_BRINE.kelvin = f32lit 25537 100 ∧
    FREEZING_POINT_OF_BRINE.kelvin = F32.finite (2091991 * 2 ^ 136) ∧
    FREEZING_POINT_OF_BRINE.scale = Scale.Kelvin ∧
    FREEZING_POINT_OF_WATER.kelvin = f32lit 27315 100 ∧
    FREEZING_POINT_OF_WATER.kelvin = F32.finite (8950579 * 2 ^ 134) ∧
    FREEZING_POINT_OF_WATER.scale = Scale.Kelvin ∧
    BOILING_POINT_OF_WATER.kelvin = f32lit 3731339 10000 ∧
    BOILING_POINT_OF_WATER.kelvin = F32.finite (3056713 * 2 ^ 136) ∧
    BOILING_POINT_OF_WATER.scale = Scale.Kelvin ∧
    MIN = ABSOLUTE_ZERO ∧
    MAX.scale = Scale.Kelvin ∧
    into_f32 MAX = F32.finite ((2 ^ 24 - 1) * 2 ^ 253) := by
  refine ⟨by decide, rfl, rfl, by decide, rfl, rfl, by decide, rfl, rfl,
    by decide, rfl, rfl, rfl, by decide⟩

/-- C9: fallible construction from NaN fails, because NaN compares
greater-or-equal to 0.0 as false even though NaN is not negative either. -/
theorem try_from_nan_fails :
    try_from F32.nan = Except.error () ∧
    F32.fge F32.nan (f32lit 0 1) = false ∧
    F32.flt F32.nan (f32lit 0 1) = false :=
  ⟨rfl, rfl, rfl⟩

/-- C10: the derived equality is not reflexive at NaN magnitude: a
Temperature storing NaN is unequal to itself, whatever its scale tag,
because the f32 field is compared with IEEE semantics. -/
theorem nan_temperature_not_self_equal (s : Scale) :
    tempEq ⟨F32.nan, s⟩ ⟨F32.nan, s⟩ = false := rfl

end SapphireStar
